import Mathlib

/-!
Verification of the OverTune session orchestrator (`ymain_cache.py`).

This file is a shallow embedding of the parts of the source relevant to the
frozen claims: the resolver/fetch pipeline (`fetch_song`, `preload_song`),
the playback advance step (`play_next`), the skip-vote consensus (`skip`),
the idle watchdog (`auto_disconnect`), and the `stop`, `remove`, `volume`
commands.  Python dictionaries holding per-guild state become explicit
parameters and return values; user ids are `ℕ`; user-supplied command
integers are `ℤ`; the float volume is modelled as `ℚ`; exceptions become
`Except`/outcome constructors; the audio-url cache is a partial map
`String → Option String`.
-/

namespace OverTune

/-- Metadata returned by the external resolver for one entry
(`ydl.extract_info` result, after selecting the first search entry). -/
structure Info where
  title : String
  webpage_url : String
  url : String
  duration : Option Nat
  thumbnails : List String
  uploader : Option String
deriving DecidableEq, Repr

/-- The song dictionary built by `fetch_song` (no requester attached yet). -/
structure SongMeta where
  title : String
  webpage_url : String
  audio_url : String
  duration : Option Nat
  thumbnail : Option String
  channel : String
deriving DecidableEq, Repr

/-- The song dictionary as it sits in a guild queue: `fetch_song`'s fields
plus the `requester_id` attached by `preload_song`. -/
structure Song extends SongMeta where
  requester_id : Nat
deriving DecidableEq, Repr

/-- Possible results of `ydl.extract_info(query, download=False)` as seen by
`fetch_song`: the call raised, returned a falsy value, returned a flat info
dict, or returned a search result with an `entries` list. -/
inductive ExtractResult where
  | raised
  | noInfo
  | flat (i : Info)
  | search (entries : List Info)
deriving DecidableEq, Repr

/-- Field extraction performed by `fetch_song` on one info dict. -/
def mkMeta (i : Info) : SongMeta :=
  { title := i.title
    webpage_url := i.webpage_url
    audio_url := i.url
    duration := i.duration
    thumbnail := i.thumbnails.getLast?
    channel := i.uploader.getD "Unknown" }

/-- `fetch_song`: raises (returns `.error`) when the resolver raised, when it
returned no info, or when a search result has an empty `entries` list
(`info["entries"][0]` raises `IndexError`); otherwise builds the song dict
from the first entry. -/
def fetch_song : ExtractResult → Except Unit SongMeta
  | .raised => .error ()
  | .noInfo => .error ()
  | .flat i => .ok (mkMeta i)
  | .search [] => .error ()
  | .search (i :: _) => .ok (mkMeta i)

/-- The `audio_cache` dictionary: `webpage_url → direct audio url`. -/
def Cache : Type := String → Option String

/-- `audio_cache.get(key, default)`. -/
def cacheGet (cache : Cache) (k d : String) : String := (cache k).getD d

/-- `audio_cache[key] = value`. -/
def cacheInsert (cache : Cache) (k v : String) : Cache :=
  fun x => if x == k then some v else cache x

/-- The empty `audio_cache`. -/
def emptyCache : Cache := fun _ => none

/-- `preload_song`: runs `fetch_song`, attaches `requester_id`, and caches the
freshly resolved audio url under the song's `webpage_url`.  Exceptions
propagate (`.error`), in which case nothing is written. -/
def preload_song (r : ExtractResult) (requester_id : Nat) (cache : Cache) :
    Except Unit (Song × Cache) :=
  match fetch_song r with
  | .error e => .error e
  | .ok m =>
    let song : Song := { m with requester_id := requester_id }
    .ok (song, cacheInsert cache song.webpage_url song.audio_url)

/-- Per-guild mutable playback state: `guild_queues[g]`, `guild_playing[g]`,
`skip_votes[g]`, `voice_client.current_song`, and whether a
`disconnect_tasks[g]` watchdog handle is registered. -/
structure PlaybackState where
  queue : List Song
  playing : Bool
  skipVotes : Finset Nat
  current : Option Song
  taskArmed : Bool
deriving DecidableEq

/-- Result of one `play_next` invocation: the updated guild state, the audio
locator handed to the sink when playback of a new track actually started,
and whether a follow-up `play_next` was scheduled because `voice_client.play`
raised. -/
structure PNResult where
  st : PlaybackState
  startedLocator : Option String
  rescheduled : Bool
deriving DecidableEq

/-- `play_next`: if the queue is empty, mark not playing and return; pop the
head; if there is no voice client, mark not playing and return (the popped
song is dropped); otherwise mark playing, bind the song as current, build the
source from the cached locator when present (falling back to the song's own
`audio_url`), start the sink, and on success cancel-and-rearm the
auto-disconnect watchdog.  `sinkOk` models whether `voice_client.play`
succeeded; on failure the code schedules another `play_next` and returns
before rearming the watchdog. -/
def play_next (hasVC sinkOk : Bool) (cache : Cache) (s : PlaybackState) : PNResult :=
  match s.queue with
  | [] => ⟨{ s with playing := false }, none, false⟩
  | song :: rest =>
    if !hasVC then ⟨{ s with queue := rest, playing := false }, none, false⟩
    else
      let s1 := { s with queue := rest, playing := true, current := some song }
      let audio_url := cacheGet cache song.webpage_url song.audio_url
      if !sinkOk then ⟨s1, none, true⟩
      else ⟨{ s1 with taskArmed := true }, some audio_url, false⟩

/-- `votes_needed = max(1, (len(vc_members) // 2))` (source line 326). -/
def votesNeeded (presentNonBot : Nat) : Nat := max 1 (presentNonBot / 2)

/-- Inputs to the `skip` command taken from the Discord context: whether a
voice client exists and is playing, the caller, whether the caller is in a
voice channel, the `current_song` attribute, whether the caller holds the OG
role, and the count of non-bot members of the caller's voice channel. -/
structure SkipCtx where
  hasVC : Bool
  isPlaying : Bool
  memberId : Nat
  inVoiceChannel : Bool
  current_song : Option Song
  hasOgRole : Bool
  presentNonBot : Nat
deriving DecidableEq

/-- User-facing outcome of the `skip` command. The two numbers shown on a
passed vote are `current_votes` and `len(vc_members)`; on a registered vote
they are `current_votes` and `votes_needed`, exactly as in the source. -/
inductive SkipOutcome where
  | nothingPlaying
  | notInChannel
  | requesterOverride
  | ogOverride
  | passed (votes members : Nat)
  | registered (votes needed : Nat)
deriving DecidableEq, Repr

/-- `skip`: precondition checks, requester override, OG override, then the
vote path.  Returns the outcome, the updated `skip_votes[guild]` set, and
whether `voice_client.stop()` was called. -/
def skip (c : SkipCtx) (votes : Finset Nat) : SkipOutcome × Finset Nat × Bool :=
  if !c.hasVC || !c.isPlaying then (.nothingPlaying, votes, false)
  else if !c.inVoiceChannel then (.notInChannel, votes, false)
  else if (match c.current_song with
           | some song => c.memberId == song.requester_id
           | none => false) then (.requesterOverride, ∅, true)
  else if c.hasOgRole then (.ogOverride, ∅, true)
  else
    let votes' := insert c.memberId votes
    let needed := votesNeeded c.presentNonBot
    let current := votes'.card
    if needed ≤ current then (.passed current c.presentNonBot, ∅, true)
    else (.registered current needed, votes', false)

/-- One polling-tick observation of the watchdog loop: whether a non-bot
member is present in the voice channel, whether the voice client is playing,
and whether the guild queue is non-empty. -/
structure Obs where
  humanPresent : Bool
  isPlaying : Bool
  queueNonempty : Bool
deriving DecidableEq, Repr

/-- The condition `members or voice_client.is_playing() or queue` that resets
the idle accumulator. -/
def Obs.isActive (o : Obs) : Bool := o.humanPresent || o.isPlaying || o.queueNonempty

/-- One tick of the idle accumulator: reset to 0 when active, otherwise add
the 5-second check interval. -/
def idleStep (o : Obs) (idle : Nat) : Nat := if o.isActive then 0 else idle + 5

/-- Result of running the watchdog loop over a finite observation trace:
either the voice client was absent and the task returned at once, or the
trace was exhausted with the loop still polling at the given accumulator, or
the 180-second threshold was reached and the teardown branch ran (once) and
broke out of the loop, leaving the remaining observations unconsumed. -/
inductive RunResult where
  | noVoice
  | running (idle : Nat)
  | tornDown (rest : List Obs)
deriving DecidableEq, Repr

/-- The `while True` body of `auto_disconnect`, run over a finite trace of
per-tick observations starting from accumulator `idle`. -/
def autoRun (idle : Nat) : List Obs → RunResult
  | [] => .running idle
  | o :: rest =>
    let idle' := idleStep o idle
    if 180 ≤ idle' then .tornDown rest else autoRun idle' rest

/-- `auto_disconnect`: returns immediately when there is no voice client,
otherwise polls from a zero accumulator. -/
def auto_disconnect (hasVC : Bool) (obs : List Obs) : RunResult :=
  if hasVC then autoRun 0 obs else .noVoice

/-- The session writes performed by the watchdog's teardown branch:
`guild_playing[g] = False`, `guild_queues[g] = deque()`,
`skip_votes[g] = set()`, `disconnect_tasks.pop(g, None)` (the sink disconnect
and the farewell message are best-effort externals). -/
def teardownEffect (s : PlaybackState) : PlaybackState :=
  { s with playing := false, queue := [], skipVotes := ∅, taskArmed := false }

/-- Whether a run result is the teardown outcome. -/
def isTorn : RunResult → Bool
  | .tornDown _ => true
  | _ => false

/-- `CREATOR_USER_ID` truthiness: `None` and `0` are falsy in
`if CREATOR_USER_ID and ...`. -/
def creatorTruthy : Option Nat → Bool
  | none => false
  | some c => c != 0

/-- User-facing outcome of the `stop` command. -/
inductive StopOutcome where
  | notAuthorized
  | stopped
  | notConnected
deriving DecidableEq, Repr

/-- State touched by `stop`: whether a voice client is connected, the guild
queue, the playing flag, and the watchdog task handle. -/
structure StopState where
  hasVC : Bool
  queue : List Song
  playing : Bool
  taskArmed : Bool
deriving DecidableEq

/-- `stop`: refuse when `CREATOR_USER_ID` is truthy and the caller differs;
when connected, clear the queue, mark not playing and disconnect; either way
cancel and drop the watchdog task handle at the end. -/
def stop (callerId : Nat) (creator : Option Nat) (s : StopState) : StopOutcome × StopState :=
  if creatorTruthy creator && !(some callerId == creator) then (.notAuthorized, s)
  else if s.hasVC then
    (.stopped, { hasVC := false, queue := [], playing := false, taskArmed := false })
  else (.notConnected, { s with taskArmed := false })

/-- User-facing outcome of the `remove` command; the authorization check and
the removal both target the song found at queue index `queue_no - 2`. -/
inductive RemoveOutcome where
  | emptyQueue
  | invalidPosition
  | notAuthorized (target : Song)
  | removed (target : Song)
deriving DecidableEq, Repr

/-- `remove`: empty-queue guard first; then the position bounds
`2 <= queue_no <= len(queue) + 1`; then ownership (`requester or truthy
creator`); `queue.remove(song)` erases the first occurrence equal to the
target.  The `none` arm of the index lookup is unreachable under the bounds
guard. -/
def remove (callerId : Nat) (creator : Option Nat) (queue_no : Int) (queue : List Song) :
    RemoveOutcome × List Song :=
  if queue.isEmpty then (.emptyQueue, queue)
  else
    let total : Int := queue.length + 1
    if queue_no < 2 || queue_no > total then (.invalidPosition, queue)
    else
      match queue.get? (queue_no - 2).toNat with
      | none => (.invalidPosition, queue)
      | some song =>
        let allowed := callerId == song.requester_id ||
          (creatorTruthy creator && some callerId == creator)
        if allowed then (.removed song, queue.erase song)
        else (.notAuthorized song, queue)

/-- User-facing outcome of the `volume` command. -/
inductive VolumeOutcome where
  | nothingPlaying
  | outOfRange
  | ok (percent : Int)
deriving DecidableEq, Repr

/-- State touched by `volume`: whether a voice client exists, whether it has
a `current_song`, the stored `guild_volumes` entry, and the gain of the
active `PCMVolumeTransformer` source when one exists. -/
structure VolState where
  hasVC : Bool
  hasCurrent : Bool
  stored : Option Rat
  sinkGain : Option Rat
deriving DecidableEq

/-- `volume`: refuse when there is no voice client or no current song; refuse
values outside 0..200; otherwise store `vol / 100.0` and, when the active
source is a volume transformer, set its gain in place. -/
def volume (vol : Int) (s : VolState) : VolumeOutcome × VolState :=
  if !s.hasVC || !s.hasCurrent then (.nothingPlaying, s)
  else if vol < 0 || vol > 200 then (.outOfRange, s)
  else
    let v : Rat := (vol : Rat) / 100
    (.ok vol, { s with stored := some v, sinkGain := s.sinkGain.map fun _ => v })

/-- Discord-context inputs to the `play` command's connection guards. -/
structure PlayCtx where
  hasVC : Bool
  authorInVoice : Bool
  connectOk : Bool
deriving DecidableEq

/-- User-facing outcome of the `play` command's enqueue path. -/
inductive PlayOutcome where
  | notInVoice
  | connectFailed
  | resolutionFailed
  | queued (s : Song)
deriving DecidableEq, Repr

/-- `play`: connection guards, then `preload_song`; a resolution failure is
reported and the handler returns with the queue and cache untouched; on
success the song is appended and, when the guild was not already playing,
`play_next` is kicked (returned as the final flag). -/
def play (c : PlayCtx) (r : ExtractResult) (requesterId : Nat) (queue : List Song)
    (playing : Bool) (cache : Cache) : PlayOutcome × List Song × Cache × Bool :=
  if !c.hasVC && !c.authorInVoice then (.notInVoice, queue, cache, false)
  else if !c.hasVC && !c.connectOk then (.connectFailed, queue, cache, false)
  else match preload_song r requesterId cache with
    | .error _ => (.resolutionFailed, queue, cache, false)
    | .ok (song, cache') => (.queued song, queue ++ [song], cache', !playing)

/-- Concrete track fixture, requested by user 1. -/
def song0 : Song :=
  { title := "t", webpage_url := "u", audio_url := "a", duration := some 60,
    thumbnail := none, channel := "c", requester_id := 1 }

/-- Concrete track fixture, requested by user 2. -/
def song1 : Song :=
  { title := "t2", webpage_url := "u2", audio_url := "a2", duration := none,
    thumbnail := none, channel := "c", requester_id := 2 }

/-- Claim C1, counterexample: with 3 present non-bot members and no override
(the voter, user 2, is neither the requester of `song0` nor OG), the very
first distinct voter already resolves the vote as a passed skip
(`max(1, 3 // 2) = 1`), refuting "3 members need exactly 2 distinct voters
to pass". -/
theorem C1_counterexample :
    skip ⟨true, true, 2, true, some song0, false, 3⟩ (∅ : Finset Nat) =
      (.passed 1 3, ∅, true) ∧ (2 : Nat) ≠ song0.requester_id := by
  decide

/-- Claim C1 (amended): on the vote path (playback active, voter present, no
requester or OG override) the threshold is `votesNeeded = max(1,
presentNonBotMemberCount / 2)` with floor division; the vote resolves as a
passed skip exactly when the number of distinct voters reaches the
threshold, and otherwise is registered without stopping playback.
Concretely: 1 present member needs 1 vote, 4 members need 2, 5 members need
2, and 3 members need only 1 distinct voter (not 2). -/
theorem C1_vote_path (c : SkipCtx) (votes : Finset Nat)
    (hvc : c.hasVC = true) (hpl : c.isPlaying = true) (hch : c.inVoiceChannel = true)
    (hreq : ∀ song, c.current_song = some song → c.memberId ≠ song.requester_id)
    (hog : c.hasOgRole = false) :
    (skip c votes =
      if votesNeeded c.presentNonBot ≤ (insert c.memberId votes).card
      then (.passed (insert c.memberId votes).card c.presentNonBot, ∅, true)
      else (.registered (insert c.memberId votes).card (votesNeeded c.presentNonBot),
            insert c.memberId votes, false)) ∧
    votesNeeded c.presentNonBot = max 1 (c.presentNonBot / 2) ∧
    votesNeeded 1 = 1 ∧ votesNeeded 4 = 2 ∧ votesNeeded 5 = 2 ∧ votesNeeded 3 = 1 := by
  refine ⟨?_, rfl, rfl, rfl, rfl, rfl⟩
  have hmatch : (match c.current_song with
      | some song => c.memberId == song.requester_id
      | none => false) = false := by
    cases hcs : c.current_song with
    | none => rfl
    | some song => exact beq_eq_false_iff_ne.mpr (hreq song hcs)
  unfold skip
  rw [hvc, hpl, hch, hog, hmatch]
  simp

/-- Witness for C1_vote_path: user 2 voting on user 1's track with 4 present
members and an empty vote set registers a 1-of-2 vote without stopping
playback. -/
theorem C1_vote_path_witness :
    skip ⟨true, true, 2, true, some song0, false, 4⟩ (∅ : Finset Nat) =
      (.registered 1 2, {2}, false) := by
  have h := (C1_vote_path ⟨true, true, 2, true, some song0, false, 4⟩ ∅
    rfl rfl rfl (by intro song hs; cases hs; decide) rfl).1
  simpa [votesNeeded, song0] using h

/-- Claim C2, counterexample: `play_next` starting a fresh track (locator
handed to the sink) leaves a non-empty skip-vote set untouched, refuting
"the vote set is emptied whenever a new track starts". -/
theorem C2_counterexample :
    (play_next true true emptyCache ⟨[song0], false, {5}, none, false⟩).st.skipVotes = {5} ∧
    (play_next true true emptyCache ⟨[song0], false, {5}, none, false⟩).startedLocator =
      some "a" ∧
    ({5} : Finset Nat) ≠ (∅ : Finset Nat) := by
  decide

/-- Claim C2 (amended): the skip-vote set is emptied after every skip
resolution (requester override, OG override, or reaching the vote
threshold) and by the idle-watchdog teardown, but `play_next` never touches
it — votes persist when a new track starts playing. -/
theorem C2_votes_cleared :
    (∀ c votes, ((skip c votes).1 = .requesterOverride ∨ (skip c votes).1 = .ogOverride ∨
        ∃ a b, (skip c votes).1 = .passed a b) → (skip c votes).2.1 = ∅) ∧
    (∀ hasVC sinkOk cache s, (play_next hasVC sinkOk cache s).st.skipVotes = s.skipVotes) ∧
    (∀ s, (teardownEffect s).skipVotes = ∅) := by
  refine ⟨?_, ?_, fun s => rfl⟩
  · intro c votes h
    unfold skip at h ⊢
    split_ifs at h ⊢
    · simp at h
    · simp at h
    · rfl
    · rfl
    · rcases le_or_lt (votesNeeded c.presentNonBot) (insert c.memberId votes).card with hle | hlt
      · rw [if_pos hle]
      · exfalso
        rw [if_neg (not_le.mpr hlt)] at h
        simp at h
  · intro hasVC sinkOk cache s
    rcases s with ⟨q, pl, sv, cur, ta⟩
    cases q
    · rfl
    · simp only [play_next]
      split_ifs <;> rfl

/-- Witness for C2_votes_cleared: a requester-override skip with a non-empty
standing vote set leaves the set empty, and a `play_next` start leaves the
standing set `{9}` as is. -/
theorem C2_votes_cleared_witness :
    (skip ⟨true, true, 1, true, some song0, false, 3⟩ ({9} : Finset Nat)).2.1 = ∅ ∧
    (play_next true true emptyCache ⟨[song1], true, {9}, some song0, true⟩).st.skipVotes =
      ({9} : Finset Nat) := by
  refine ⟨C2_votes_cleared.1 _ {9} (Or.inl (by decide)), ?_⟩
  simpa using C2_votes_cleared.2.1 true true emptyCache ⟨[song1], true, {9}, some song0, true⟩

/-- A trace contains 36 consecutive polling ticks (36 × 5 s = 180 s) on each
of which no human is present, nothing is playing, and the queue is empty. -/
def hasIdleWindow (obs : List Obs) : Prop :=
  ∃ p w q, obs = p ++ w ++ q ∧ w.length = 36 ∧ ∀ o ∈ w, o.isActive = false

theorem take_drop_split {α : Type} (n : Nat) (p q : List α) :
    p ++ q = p.take n ++ (p.drop n ++ q) := by
  rw [← List.append_assoc, List.take_append_drop]

/-- Continue a finished run over further observations. -/
def seqRun (r : RunResult) (q : List Obs) : RunResult :=
  match r with
  | .noVoice => .noVoice
  | .running i => autoRun i q
  | .tornDown rest => .tornDown (rest ++ q)

theorem autoRun_append (p q : List Obs) :
    ∀ idle, autoRun idle (p ++ q) = seqRun (autoRun idle p) q := by
  induction p with
  | nil => intro idle; rfl
  | cons o rest ih =>
    intro idle
    simp only [List.cons_append, autoRun]
    split_ifs with h
    · rfl
    · exact ih _

theorem autoRun_ne_noVoice (obs : List Obs) : ∀ idle, autoRun idle obs ≠ .noVoice := by
  induction obs with
  | nil => intro idle; simp [autoRun]
  | cons o rest ih =>
    intro idle
    simp only [autoRun]
    split_ifs with h
    · simp
    · exact ih _

theorem autoRun_running (obs : List Obs) : ∀ idle i, autoRun idle obs = .running i →
    i < 180 ∨ i = idle := by
  induction obs with
  | nil =>
    intro idle i h
    simp only [autoRun, RunResult.running.injEq] at h
    exact Or.inr h.symm
  | cons o rest ih =>
    intro idle i h
    simp only [autoRun] at h
    split_ifs at h with hle
    · rcases ih _ _ h with h1 | h1
      · exact Or.inl h1
      · subst h1
        exact Or.inl (lt_of_not_le hle)

theorem autoRun_forced (l : List Obs) : ∀ idle, (∀ o ∈ l, o.isActive = false) →
    180 ≤ idle + 5 * l.length → isTorn (autoRun idle l) = true ∨ 180 ≤ idle := by
  induction l with
  | nil =>
    intro idle _ h
    right
    simpa using h
  | cons o rest ih =>
    intro idle hin h
    have ho : o.isActive = false := hin o (by simp)
    simp only [autoRun, idleStep, ho, Bool.false_eq_true, if_false]
    split_ifs with hle
    · exact Or.inl rfl
    · have hrest : 180 ≤ idle + 5 + 5 * rest.length := by
        simp only [List.length_cons] at h
        omega
      rcases ih (idle + 5) (fun o' ho' => hin o' (List.mem_cons_of_mem o ho')) hrest with h1 | h1
      · exact Or.inl h1
      · exact absurd h1 hle

theorem autoRun_torn_decomp (obs : List Obs) : ∀ idle, isTorn (autoRun idle obs) = true →
    (∃ p q, obs = p ++ q ∧ (∀ o ∈ p, o.isActive = false) ∧ 180 ≤ idle + 5 * p.length) ∨
    hasIdleWindow obs := by
  induction obs with
  | nil => intro idle h; simp [autoRun, isTorn] at h
  | cons o rest ih =>
    intro idle h
    simp only [autoRun] at h
    by_cases ha : o.isActive
    · have hstep : idleStep o idle = 0 := by simp [idleStep, ha]
      rw [hstep, if_neg (by omega)] at h
      rcases ih 0 h with ⟨p, q, hpq, hin, hlen⟩ | hw
      · right
        have hp36 : 36 ≤ p.length := by omega
        refine ⟨[o], p.take 36, p.drop 36 ++ q, ?_, ?_, ?_⟩
        · rw [hpq, take_drop_split 36 p q]
          rfl
        · simp [List.length_take, hp36]
        · intro x hx
          exact hin x (List.mem_of_mem_take hx)
      · right
        obtain ⟨p, w, q, hpq, hlen, hin⟩ := hw
        exact ⟨o :: p, w, q, by simp [hpq], hlen, hin⟩
    · have ho : o.isActive = false := Bool.eq_false_iff.mpr ha
      have hstep : idleStep o idle = idle + 5 := by simp [idleStep, ho]
      rw [hstep] at h
      by_cases hle : 180 ≤ idle + 5
      · left
        refine ⟨[o], rest, rfl, ?_, by simpa using hle⟩
        intro x hx
        simp only [List.mem_singleton] at hx
        exact hx ▸ ho
      · rw [if_neg hle] at h
        rcases ih (idle + 5) h with ⟨p, q, hpq, hin, hlen⟩ | hw
        · left
          refine ⟨o :: p, q, by simp [hpq], ?_, ?_⟩
          · intro x hx
            rcases List.mem_cons.mp hx with rfl | hx'
            · exact ho
            · exact hin x hx'
          · simp only [List.length_cons]
            omega
        · right
          obtain ⟨p, w, q, hpq, hlen, hin⟩ := hw
          exact ⟨o :: p, w, q, by simp [hpq], hlen, hin⟩

/-- Claim C3 (confirmed): the watchdog resets its idle accumulator to zero on
every tick where a non-bot member is present, playback is active, or the
queue is non-empty; the armed watchdog tears the session down exactly when
its trace contains 36 consecutive fully idle 5-second ticks (180 s of
continuously accumulated idleness), at which point the loop breaks (the
teardown runs once, leaving the rest of the trace unconsumed); and the
teardown marks the session not playing, clears the queue, clears the skip
votes, and removes the task handle. -/
theorem C3_idle_watchdog :
    (∀ o idle, o.isActive = true → idleStep o idle = 0) ∧
    (∀ obs, isTorn (auto_disconnect true obs) = true ↔ hasIdleWindow obs) ∧
    (∀ s, teardownEffect s = ⟨[], false, ∅, s.current, false⟩) := by
  refine ⟨fun o idle h => by simp [idleStep, h], fun obs => ?_, fun s => rfl⟩
  show isTorn (autoRun 0 obs) = true ↔ hasIdleWindow obs
  constructor
  · intro h
    rcases autoRun_torn_decomp obs 0 h with ⟨p, q, hpq, hin, hlen⟩ | hw
    · have hp36 : 36 ≤ p.length := by omega
      refine ⟨[], p.take 36, p.drop 36 ++ q, ?_, ?_, ?_⟩
      · rw [hpq, take_drop_split 36 p q]
        rfl
      · simp [List.length_take, hp36]
      · intro x hx
        exact hin x (List.mem_of_mem_take hx)
    · exact hw
  · rintro ⟨p, w, q, rfl, hlen, hin⟩
    rw [List.append_assoc, autoRun_append]
    cases hp : autoRun 0 p with
    | noVoice => exact absurd hp (autoRun_ne_noVoice p 0)
    | tornDown r => rfl
    | running i =>
      have hi : i < 180 := by
        rcases autoRun_running p 0 i hp with h | h
        · exact h
        · omega
      simp only [seqRun]
      rw [autoRun_append]
      rcases autoRun_forced w i hin (by rw [hlen]; omega) with h1 | h1
      · cases hw' : autoRun i w with
        | noVoice => exact absurd hw' (autoRun_ne_noVoice w i)
        | running j => rw [hw'] at h1; simp [isTorn] at h1
        | tornDown r => rfl
      · omega

/-- Witness for C3_idle_watchdog: a trace of 36 fully idle ticks triggers the
teardown, an active tick zeroes any accumulator, and the teardown on a
concrete live session clears queue, votes, playing flag, and task handle. -/
theorem C3_idle_watchdog_witness :
    idleStep ⟨true, false, false⟩ 175 = 0 ∧
    isTorn (auto_disconnect true (List.replicate 36 ⟨false, false, false⟩)) = true ∧
    teardownEffect ⟨[song0], true, {3}, some song0, true⟩ =
      ⟨[], false, ∅, some song0, false⟩ := by
  refine ⟨C3_idle_watchdog.1 ⟨true, false, false⟩ 175 rfl, ?_, ?_⟩
  · refine (C3_idle_watchdog.2.1 _).mpr
      ⟨[], List.replicate 36 ⟨false, false, false⟩, [], by simp, by simp, ?_⟩
    intro o ho
    rw [List.eq_of_mem_replicate ho]
    rfl
  · exact C3_idle_watchdog.2.2 ⟨[song0], true, {3}, some song0, true⟩

/-- Claim C4, counterexample: with no operator designated (`CREATOR_USER_ID`
is `None`), an arbitrary caller (user 42) is not refused: `stop` succeeds,
clears the queue and playing flag, disconnects, and drops the watchdog task,
refuting "any other caller fails with NotAuthorized ... including when no
operator is designated". -/
theorem C4_counterexample :
    stop 42 none ⟨true, [song0], true, true⟩ =
      (.stopped, ⟨false, [], false, false⟩) ∧
    StopOutcome.stopped ≠ StopOutcome.notAuthorized := by
  decide

/-- Claim C4 (amended): when a non-zero operator id is designated, every
caller other than the operator fails with NotAuthorized and the session
state is left unchanged; but when no operator is designated (or the
configured id is 0) the authorization check is bypassed and no caller is
ever refused. -/
theorem C4_stop_operator :
    (∀ caller c s, c ≠ 0 → caller ≠ c → stop caller (some c) s = (.notAuthorized, s)) ∧
    (∀ caller s, (stop caller none s).1 ≠ .notAuthorized) ∧
    (∀ caller s, (stop caller (some 0) s).1 ≠ .notAuthorized) := by
  refine ⟨?_, ?_, ?_⟩
  · intro caller c s hc hne
    have h1 : creatorTruthy (some c) = true := by
      simpa [creatorTruthy] using hc
    have h2 : (some caller == some c) = false := by
      refine beq_eq_false_iff_ne.mpr ?_
      intro h
      exact hne (Option.some.inj h)
    unfold stop
    rw [h1, h2]
    rfl
  · intro caller s
    unfold stop
    simp only [creatorTruthy, Bool.false_and, Bool.false_eq_true, if_false]
    split_ifs <;> simp
  · intro caller s
    unfold stop
    simp only [creatorTruthy]
    split_ifs <;> simp_all

/-- Witness for C4_stop_operator: with operator 7 designated, caller 8 is
refused and a live session is untouched, while with no operator designated
caller 8 is not refused. -/
theorem C4_stop_operator_witness :
    stop 8 (some 7) ⟨true, [song0], true, true⟩ =
      (.notAuthorized, ⟨true, [song0], true, true⟩) ∧
    (stop 8 none ⟨true, [song0], true, true⟩).1 ≠ .notAuthorized := by
  exact ⟨C4_stop_operator.1 8 7 ⟨true, [song0], true, true⟩ (by decide) (by decide),
    C4_stop_operator.2.1 8 ⟨true, [song0], true, true⟩⟩

/-- Claim C5, counterexample: on an empty queue, `remove` with position 1
fails with the empty-queue error, not with InvalidPosition, refuting
"removeAt(1) always fails InvalidPosition regardless of queue contents". -/
theorem C5_counterexample :
    (remove 7 none 1 []).1 = .emptyQueue ∧
    RemoveOutcome.emptyQueue ≠ RemoveOutcome.invalidPosition := by
  decide

/-- Claim C5 (amended): on an empty queue every position fails with the
empty-queue error; on a non-empty queue of length N, position 1 (indeed any
position below 2) and any position at or above N+2 fail with
InvalidPosition, and a position p in 2..N+1 targets exactly the queued
element `queue[p-2]`, which is removed when the caller is its requester or
the truthy operator and refused with NotAuthorized otherwise. -/
theorem C5_remove_positions (caller : Nat) (creator : Option Nat) (p : Int) (q : List Song) :
    (q = [] → remove caller creator p q = (.emptyQueue, q)) ∧
    (q ≠ [] → p < 2 → remove caller creator p q = (.invalidPosition, q)) ∧
    (q ≠ [] → (q.length : Int) + 2 ≤ p → remove caller creator p q = (.invalidPosition, q)) ∧
    (2 ≤ p → p ≤ (q.length : Int) + 1 → ∃ s, q.get? (p - 2).toNat = some s ∧
      remove caller creator p q =
        (if caller == s.requester_id || (creatorTruthy creator && some caller == creator)
         then (.removed s, q.erase s) else (.notAuthorized s, q))) := by
  refine ⟨?_, ?_, ?_, ?_⟩
  · intro h
    subst h
    rfl
  · intro hne hp
    unfold remove
    rw [if_neg (by simpa [List.isEmpty_iff] using hne), if_pos (by simp [hp])]
  · intro hne hp
    unfold remove
    rw [if_neg (by simpa [List.isEmpty_iff] using hne), if_pos (by simp; omega)]
  · intro h2 hub
    have hne : q ≠ [] := by
      intro h
      subst h
      simp at hub
      omega
    have hidx : (p - 2).toNat < q.length := by omega
    have hs := List.get?_eq_get hidx
    refine ⟨q.get ⟨(p - 2).toNat, hidx⟩, hs, ?_⟩
    unfold remove
    rw [if_neg (by simpa [List.isEmpty_iff] using hne),
      if_neg (by simp; omega), hs]

/-- Witness for C5_remove_positions: all four branches at concrete inputs —
empty queue, position 1 on a non-empty queue, position N+2, and an
authorized in-range removal of position 2 targeting the head of the queue. -/
theorem C5_remove_positions_witness :
    remove 1 none 3 [] = (.emptyQueue, []) ∧
    remove 1 none 1 [song0, song1] = (.invalidPosition, [song0, song1]) ∧
    remove 1 none 4 [song0, song1] = (.invalidPosition, [song0, song1]) ∧
    remove 1 none 2 [song0, song1] = (.removed song0, [song1]) := by
  refine ⟨(C5_remove_positions 1 none 3 []).1 rfl,
    (C5_remove_positions 1 none 1 [song0, song1]).2.1 (by decide) (by decide),
    (C5_remove_positions 1 none 4 [song0, song1]).2.2.1 (by decide) (by decide), ?_⟩
  obtain ⟨s, hs, h⟩ :=
    (C5_remove_positions 1 none 2 [song0, song1]).2.2.2 (by decide) (by decide)
  have hs0 : s = song0 := by
    simpa using hs.symm
  subst hs0
  simpa [song0] using h

/-- Claim C6, counterexample: an in-range request (50) with a voice client
but no current track fails with NothingPlaying and leaves the stored volume
at its old value 1, refuting "when no sink/current track exists the
session's stored volume is still updated". -/
theorem C6_counterexample :
    volume 50 ⟨true, false, some 1, none⟩ = (.nothingPlaying, ⟨true, false, some 1, none⟩) ∧
    (1 : Rat) ≠ 50 / 100 := by
  constructor
  · rfl
  · norm_num

/-- Claim C6 (amended): an in-range volume request succeeds only when a voice
client with a current track exists; it then stores `vol / 100` and mutates
the active transformer's gain in place when one exists; when the voice
client or current track is missing the request fails with NothingPlaying and
changes nothing. -/
theorem C6_volume_in_range :
    (∀ vol s, 0 ≤ vol → vol ≤ 200 → s.hasVC = true → s.hasCurrent = true →
      volume vol s = (.ok vol,
        { s with stored := some ((vol : Rat) / 100),
                 sinkGain := s.sinkGain.map fun _ => (vol : Rat) / 100 })) ∧
    (∀ vol s, s.hasVC = false ∨ s.hasCurrent = false →
      volume vol s = (.nothingPlaying, s)) := by
  constructor
  · intro vol s h0 h200 hvc hcur
    unfold volume
    rw [if_neg (by simp [hvc, hcur]), if_neg (by simp; omega)]
  · intro vol s h
    unfold volume
    rcases h with h | h <;> rw [if_pos (by simp [h])]

/-- Witness for C6_volume_in_range: setting 50 on a playing session with an
active transformer stores 1/2 and sets the gain to 1/2; the same request
with no current track fails NothingPlaying and changes nothing. -/
theorem C6_volume_in_range_witness :
    volume 50 ⟨true, true, some 1, some 1⟩ =
      (.ok 50, ⟨true, true, some (50 / 100 : Rat), some (50 / 100 : Rat)⟩) ∧
    volume 50 ⟨true, false, some 1, none⟩ = (.nothingPlaying, ⟨true, false, some 1, none⟩) := by
  refine ⟨?_, C6_volume_in_range.2 50 ⟨true, false, some 1, none⟩ (Or.inr rfl)⟩
  simpa using C6_volume_in_range.1 50 ⟨true, true, some 1, some 1⟩
    (by decide) (by decide) rfl rfl

/-- Claim C7, counterexample: the out-of-range request 250 issued while
nothing is playing fails with NothingPlaying, not OutOfRange, refuting "for
every volume request with value outside 0..200 the operation fails with
OutOfRange". -/
theorem C7_counterexample :
    (volume 250 ⟨false, false, some 1, none⟩).1 = .nothingPlaying ∧
    VolumeOutcome.nothingPlaying ≠ VolumeOutcome.outOfRange := by
  constructor
  · rfl
  · intro h
    cases h

/-- Claim C7 (amended): an out-of-range volume request never succeeds and
never changes the stored volume or the sink gain; when playback is active
(voice client with a current track) the reported failure is OutOfRange,
while with nothing playing the earlier NothingPlaying guard fires instead;
in no case is the value clamped into range. -/
theorem C7_volume_out_of_range (vol : Int) (s : VolState) (h : vol < 0 ∨ 200 < vol) :
    (volume vol s).2 = s ∧ (∀ p, (volume vol s).1 ≠ .ok p) ∧
    (s.hasVC = true → s.hasCurrent = true → (volume vol s).1 = .outOfRange) := by
  unfold volume
  split_ifs with h1 h2
  · refine ⟨rfl, ?_, ?_⟩
    · intro p hp
      cases hp
    · intro hvc hcur
      simp [hvc, hcur] at h1
  · refine ⟨rfl, ?_, ?_⟩
    · intro p hp
      cases hp
    · intro _ _
      rfl
  · exfalso
    simp only [Bool.or_eq_true, decide_eq_true_eq, not_or, not_lt] at h2
    rcases h with h | h <;> omega

/-- Witness for C7_volume_out_of_range: the request 250 on a playing session
with stored volume 1 and gain 1 fails OutOfRange, leaves the state
unchanged, and is not an ok outcome. -/
theorem C7_volume_out_of_range_witness :
    (volume 250 ⟨true, true, some 1, some 1⟩).2 = ⟨true, true, some 1, some 1⟩ ∧
    (volume 250 ⟨true, true, some 1, some 1⟩).1 ≠ .ok 250 ∧
    (volume 250 ⟨true, true, some 1, some 1⟩).1 = .outOfRange := by
  have h := C7_volume_out_of_range 250 ⟨true, true, some 1, some 1⟩ (by omega)
  exact ⟨h.1, h.2.1 250, h.2.2 rfl rfl⟩

/-- Claim C8 (confirmed): whenever playback is active, the skip requester is
present in the channel, and the requester equals the current track's
requester, `skip` resolves as a requester-override skip — playback stops and
the vote set is cleared — regardless of the standing votes and of the
present member count. -/
theorem C8_requester_override (c : SkipCtx) (votes : Finset Nat) (song : Song)
    (hvc : c.hasVC = true) (hpl : c.isPlaying = true) (hch : c.inVoiceChannel = true)
    (hcur : c.current_song = some song) (hid : c.memberId = song.requester_id) :
    skip c votes = (.requesterOverride, ∅, true) := by
  unfold skip
  rw [hvc, hpl, hch]
  have hmatch : (match c.current_song with
      | some song => c.memberId == song.requester_id
      | none => false) = true := by
    rw [hcur]
    exact beq_iff_eq.mpr hid
  rw [hmatch]
  rfl

/-- Witness for C8_requester_override: user 1 skipping their own `song0` with
two standing votes and 50 present members resolves immediately as the
override, clearing the votes. -/
theorem C8_requester_override_witness :
    skip ⟨true, true, 1, true, some song0, false, 50⟩ ({3, 4} : Finset Nat) =
      (.requesterOverride, ∅, true) :=
  C8_requester_override ⟨true, true, 1, true, some song0, false, 50⟩ {3, 4} song0
    rfl rfl rfl rfl rfl

/-- Claim C9 (confirmed): once the connection guards pass, a failing metadata
resolution (resolver raised, no info, or an empty search result) is reported
as a resolution failure and leaves the queue — and the locator cache —
exactly as they were; no partial track is appended and playback is not
kicked. -/
theorem C9_resolution_failure (c : PlayCtx) (r : ExtractResult) (req : Nat)
    (q : List Song) (playing : Bool) (cache : Cache)
    (hconn : c.hasVC = true ∨ (c.authorInVoice = true ∧ c.connectOk = true))
    (hf : fetch_song r = .error ()) :
    play c r req q playing cache = (.resolutionFailed, q, cache, false) := by
  rcases hconn with h | ⟨h1, h2⟩
  · simp [play, preload_song, hf, h]
  · simp [play, preload_song, hf, h1, h2]

/-- Witness for C9_resolution_failure: a raised resolver call on a connected
session with one queued track reports the failure and leaves the queue
untouched; likewise an empty search result. -/
theorem C9_resolution_failure_witness :
    play ⟨true, true, true⟩ .raised 5 [song0] true emptyCache =
      (.resolutionFailed, [song0], emptyCache, false) ∧
    play ⟨true, false, false⟩ (.search []) 5 [song0] false emptyCache =
      (.resolutionFailed, [song0], emptyCache, false) := by
  exact ⟨C9_resolution_failure ⟨true, true, true⟩ .raised 5 [song0] true emptyCache
      (Or.inl rfl) rfl,
    C9_resolution_failure ⟨true, false, false⟩ (.search []) 5 [song0] false emptyCache
      (Or.inl rfl) rfl⟩

/-- Claim C10 (confirmed): when playback of a track starts, the locator
handed to the sink is the cache entry under the track's canonical
`webpage_url` whenever one exists, and only falls back to the locator stored
in the track when the cache has none; and a successful resolution always
(re)writes the cache entry for that canonical url with the freshly resolved
locator. -/
theorem C10_cache_locator :
    (∀ (cache : Cache) (s : PlaybackState) (song : Song) (rest : List Song) (loc : String),
      s.queue = song :: rest → cache song.webpage_url = some loc →
      (play_next true true cache s).startedLocator = some loc) ∧
    (∀ (cache : Cache) (s : PlaybackState) (song : Song) (rest : List Song),
      s.queue = song :: rest → cache song.webpage_url = none →
      (play_next true true cache s).startedLocator = some song.audio_url) ∧
    (∀ (r : ExtractResult) (req : Nat) (cache : Cache) (song : Song) (cache' : Cache),
      preload_song r req cache = .ok (song, cache') →
      cache' song.webpage_url = some song.audio_url) := by
  refine ⟨?_, ?_, ?_⟩
  · intro cache s song rest loc hq hc
    simp [play_next, hq, cacheGet, hc]
  · intro cache s song rest hq hc
    simp [play_next, hq, cacheGet, hc]
  · intro r req cache song cache' hok
    unfold preload_song at hok
    cases hf : fetch_song r with
    | error e => rw [hf] at hok; cases hok
    | ok m =>
      rw [hf] at hok
      simp only [Except.ok.injEq, Prod.mk.injEq] at hok
      obtain ⟨hsong, hcache⟩ := hok
      subst hsong
      subst hcache
      simp [cacheInsert]

/-- Witness for C10_cache_locator: with a cache entry "cached" under
`song0`'s url the sink receives "cached"; with an empty cache it receives
`song0`'s own locator "a"; and resolving a flat info dict writes its fresh
locator into the cache under its canonical url. -/
theorem C10_cache_locator_witness :
    (play_next true true (cacheInsert emptyCache "u" "cached")
      ⟨[song0], false, ∅, none, false⟩).startedLocator = some "cached" ∧
    (play_next true true emptyCache
      ⟨[song0], false, ∅, none, false⟩).startedLocator = some "a" ∧
    (cacheInsert emptyCache "u" "a") "u" = some "a" := by
  refine ⟨C10_cache_locator.1 (cacheInsert emptyCache "u" "cached")
      ⟨[song0], false, ∅, none, false⟩ song0 [] "cached" rfl rfl,
    C10_cache_locator.2.1 emptyCache ⟨[song0], false, ∅, none, false⟩ song0 [] rfl rfl, ?_⟩
  exact C10_cache_locator.2.2 (.flat ⟨"t", "u", "a", some 60, [], some "c"⟩) 1 emptyCache
    { title := "t", webpage_url := "u", audio_url := "a", duration := some 60,
      thumbnail := none, channel := "c", requester_id := 1 }
    (cacheInsert emptyCache "u" "a") rfl

end OverTune
